import Mathlib

/-!
# Verification of the ghost-bus detection backend

Shallow embedding of `backend/app/main.py` (the operative module: the FastAPI
app instantiates the `GhostDetector`, `ConnectionManager`, the `STATE` dict
and the endpoint handlers defined there; `detector.py`, `ingestion.py` and
`ingester.py` are unused drafts).  Numeric values are modelled as `ℚ`
(Python floats idealized as exact rationals; every threshold comparison in the
source involves short decimal constants whose verdicts agree under this
idealization).  The Redis-backed per-vehicle lists are modelled as explicit
`List` values threaded through the functions, mirroring the
`lpush`/`ltrim`/`lrange` call sequence: `lpush` prepends, `ltrim key 0 n`
keeps the `n + 1` front elements, `lrange key 0 -1` reads the whole list.
-/

namespace GhostBus

/-- One entry of the per-vehicle `vehicle:{id}:locations` Redis list: the
`location_data` dict `{"lat": .., "lon": .., "timestamp": ..}` built in
`detect_anomalies` (main.py lines 129-133). -/
structure LocationSample where
  lat : ℚ
  lon : ℚ
  timestamp : ℚ
deriving DecidableEq

/-- The six-component tuple returned by `GhostDetector.detect_anomalies`
(main.py line 187): `(len(anomaly_types) > 0, anomaly_types, severity,
ghost_score, is_ghost, status)`. -/
structure DetectResult where
  anomaly : Bool
  anomaly_types : List String
  severity : String
  ghost_score : ℚ
  is_ghost : Bool
  status : String
deriving DecidableEq

/-- `GhostDetector.push_series` (main.py lines 98-101): `lpush` the value and
`ltrim key 0 (window - 1)`, i.e. prepend and keep the front `window`
elements.  The source's default argument is `window = 60`. -/
def push_series (value : ℚ) (series : List ℚ) (window : ℕ) : List ℚ :=
  (value :: series).take window

/-- `GhostDetector.get_moving_stats` (main.py lines 103-112): returns `none`
when the stored series is empty or shorter than 5, otherwise the mean of the
series.  The source also computes the population standard deviation
(`statistics.pstdev`) and the count, but `detect_anomalies` only ever reads
the `"avg"` field of the result, so the model keeps just the mean (the
standard deviation is irrational in general and unused). -/
def get_moving_stats (vals : List ℚ) : Option ℚ :=
  if vals.length < 5 then none
  else some (vals.sum / (vals.length : ℚ))

/-- Sum of `haversine_distance` over consecutive pairs of the retained
location window: the `for i in range(len(locations) - 1)` loop of
`detect_anomalies` (main.py lines 142-149), parameterized by the distance
function `self.haversine_distance(lat1, lon1, lat2, lon2)`. -/
def total_distance (haversine_distance : ℚ → ℚ → ℚ → ℚ → ℚ) :
    List LocationSample → ℚ
  | l1 :: l2 :: rest =>
      haversine_distance l1.lat l1.lon l2.lat l2.lon
        + total_distance haversine_distance (l2 :: rest)
  | _ => 0

/-- The location-window update of `detect_anomalies` (main.py lines 135-136):
`lpush(loc_key, ...)` then `ltrim(loc_key, 0, 10)`.  `ltrim key 0 10` keeps
the front **11** elements (indices 0 through 10 inclusive), even though the
adjacent source comment says "Keep last 10 positions". -/
def location_window (lat lon last_ts : ℚ) (locations : List LocationSample) :
    List LocationSample :=
  ({ lat := lat, lon := lon, timestamp := last_ts } :: locations).take 11

/-- The speed-window update of `detect_anomalies` (main.py lines 157-159):
`push_series(speed_key, float(speed))` with the default `window = 60`,
performed only when `"speed"` is present and not `None`. -/
def speed_window (speed : Option ℚ) (speeds : List ℚ) : List ℚ :=
  match speed with
  | none => speeds
  | some s => push_series s speeds 60

/-- Speed-anomaly tagging, third block of `detect_anomalies` (main.py lines
161-167): with the post-push speed window available, append `"speed_spike"`
when `current_speed > avg * 3`, else `"speed_drop"` when
`avg > 0 and current_speed < avg * 0.3`; skip entirely when
`get_moving_stats` returned `None`. -/
def speed_rule (current_speed : ℚ) (speeds2 : List ℚ) (tags : List String) :
    List String :=
  match get_moving_stats speeds2 with
  | none => tags
  | some avg =>
      if avg * 3 < current_speed then tags ++ ["speed_spike"]
      else if 0 < avg ∧ current_speed < avg * (3 / 10) then tags ++ ["speed_drop"]
      else tags

/-- Score and severity finalization of `detect_anomalies` (main.py lines
169-187): `ghost_score` sums 0.4 for `"stale"`, 0.25 for `"not_moving"` and
0.2 for `"speed_drop"` (no explicit clamp appears in the source); severity
becomes `"critical"` when two or more tags fired, else `"warning"` when the
score exceeds 0.3, else the running severity; `is_ghost = ghost_score >= 0.6`;
`status` accordingly; the first tuple component is `len(anomaly_types) > 0`. -/
def finalize (anomaly_types : List String) (severity2 : String) : DetectResult :=
  let ghost_score : ℚ :=
    (if "stale" ∈ anomaly_types then 2 / 5 else 0)
      + (if "not_moving" ∈ anomaly_types then 1 / 4 else 0)
      + (if "speed_drop" ∈ anomaly_types then 1 / 5 else 0)
  let severity3 : String :=
    if 2 ≤ anomaly_types.length then "critical"
    else if 3 / 10 < ghost_score then "warning"
    else severity2
  let is_ghost : Bool := decide ((3 / 5 : ℚ) ≤ ghost_score)
  ⟨decide (0 < anomaly_types.length), anomaly_types, severity3, ghost_score,
    is_ghost, if is_ghost then "ghost" else "active"⟩

/-- `GhostDetector.detect_anomalies` (main.py lines 114-187), as a pure
function of the incoming record fields, the wall clock `now = time.time()`,
and the two per-vehicle Redis windows; it returns the result tuple together
with the updated windows.  `haversine_distance` is the distance function of
main.py lines 88-96 left as a parameter (the source computes it with
transcendental `math` functions over floats; every theorem below is proved
for an arbitrary distance function).

Faithful details: `last_ts = bus_data.get("timestamp", now)` (line 122); the
staleness threshold is the hardcoded literal `20` (line 123, source comment:
"Lowered from 120 to 20 seconds"); the `not_moving` check fires when the
post-push window has at least 5 entries and the summed distance is below 5;
the severity floor updates mirror lines 125 and 153-154. -/
def detect_anomalies (haversine_distance : ℚ → ℚ → ℚ → ℚ → ℚ)
    (now lat lon : ℚ) (speed : Option ℚ) (timestamp : Option ℚ)
    (locations : List LocationSample) (speeds : List ℚ) :
    DetectResult × List LocationSample × List ℚ :=
  let last_ts : ℚ := timestamp.getD now
  let anomaly_types1 : List String :=
    if 20 < now - last_ts then ["stale"] else []
  let severity1 : String :=
    if 20 < now - last_ts then "warning" else "info"
  let locations2 : List LocationSample := location_window lat lon last_ts locations
  let anomaly_types2 : List String :=
    if 5 ≤ locations2.length ∧ total_distance haversine_distance locations2 < 5
    then anomaly_types1 ++ ["not_moving"] else anomaly_types1
  let severity2 : String :=
    if 5 ≤ locations2.length ∧ total_distance haversine_distance locations2 < 5
    then (if severity1 = "info" then "warning" else severity1) else severity1
  let speeds2 : List ℚ := speed_window speed speeds
  let anomaly_types3 : List String :=
    match speed with
    | none => anomaly_types2
    | some s => speed_rule s speeds2 anomaly_types2
  (finalize anomaly_types3 severity2, locations2, speeds2)

/-- The severity floor set by the individual detection rules, following the
spec's words (a spec-side definition used to compare `detect_anomalies`
against the claim): the staleness and not-moving rules floor severity at
`"warning"`; the speed rules set no floor; `"info"` when no floor was set. -/
def rule_floor (anomaly_types : List String) : String :=
  if "stale" ∈ anomaly_types ∨ "not_moving" ∈ anomaly_types
  then "warning" else "info"

/-- The `BusUpdate` pydantic model (main.py lines 20-28): `vehicle_id`, `lat`
and `lon` are required fields; the rest are optional with default `None`.
The field types carry no range constraint and no non-emptiness constraint. -/
structure BusUpdate where
  vehicle_id : String
  lat : ℚ
  lon : ℚ
  route_id : Option String
  trip_id : Option String
  speed : Option ℚ
  bearing : Option ℚ
  timestamp : Option ℚ
deriving DecidableEq

/-- An incoming `/update_bus` request body before model validation: each
field of `BusUpdate` possibly absent. -/
structure RawBusUpdate where
  vehicle_id : Option String
  lat : Option ℚ
  lon : Option ℚ
  route_id : Option String
  trip_id : Option String
  speed : Option ℚ
  bearing : Option ℚ
  timestamp : Option ℚ
deriving DecidableEq

/-- Pydantic validation of a request body against the `BusUpdate` model
declared in main.py lines 20-28: a body missing any of the three required
fields (`vehicle_id`, `lat`, `lon`) is rejected (FastAPI surfaces this as a
422 validation error to the caller before the handler runs); any body with
all three present parses, with no range check on `lat`/`lon` and no
non-emptiness check on `vehicle_id`, because the model declares bare `str`
and `float` types. -/
def parseBusUpdate (r : RawBusUpdate) : Except String BusUpdate :=
  match r.vehicle_id, r.lat, r.lon with
  | some v, some la, some lo =>
      Except.ok ⟨v, la, lo, r.route_id, r.trip_id, r.speed, r.bearing, r.timestamp⟩
  | _, _, _ => Except.error "validation error"

/-- One value of the `STATE` dict (main.py line 208): the request fields plus
the detection outputs merged in by `update_bus_position` (lines 337-352).
The `last_update` wall-clock ISO string (line 339) is not modelled: no claim
mentions it and it carries no information about the pipeline logic. -/
structure StoredBus where
  vehicle_id : String
  lat : ℚ
  lon : ℚ
  route_id : Option String
  trip_id : Option String
  speed : Option ℚ
  bearing : Option ℚ
  timestamp : ℚ
  anomaly : Bool
  anomaly_types : List String
  severity : String
  ghost_score : ℚ
  is_ghost : Bool
  status : String
deriving DecidableEq

/-- Python dict assignment `STATE[vehicle_id] = bus_data` (main.py line 357)
over an association-list model of the dict. -/
def dictSet (state : List (String × StoredBus)) (k : String) (v : StoredBus) :
    List (String × StoredBus) :=
  match state with
  | [] => [(k, v)]
  | (k2, v2) :: rest => if k2 = k then (k, v) :: rest else (k2, v2) :: dictSet rest k v

/-- Python dict lookup `STATE.get(vehicle_id)` over the association-list
model. -/
def dictGet (state : List (String × StoredBus)) (k : String) : Option StoredBus :=
  match state with
  | [] => none
  | (k2, v2) :: rest => if k2 = k then some v2 else dictGet rest k

/-- Everything `update_bus_position` (main.py lines 331-371) produces: the
JSON response fields (`success`, `vehicle_id`, `ghost_score`, `is_ghost`,
`anomalies_detected`), the updated `STATE`, the dict broadcast to WebSocket
clients, and the updated Redis windows. -/
structure UpdateOutcome where
  success : Bool
  vehicle_id : String
  ghost_score : ℚ
  is_ghost : Bool
  anomalies_detected : List String
  new_state : List (String × StoredBus)
  broadcast_data : StoredBus
  new_locations : List LocationSample
  new_speeds : List ℚ
deriving DecidableEq

/-- The `/update_bus` handler `update_bus_position` (main.py lines 331-371)
on an already-parsed `BusUpdate`.  It performs no validation of its own:
`bus_data["timestamp"] = bus_data.get("timestamp") or time.time()` defaults
the timestamp (Python `or` also replaces a `0` timestamp, since `0.0` is
falsy); `detect_anomalies` runs and its outputs are merged into the record;
the record is stored in `STATE` and broadcast; the handler returns
`success: True`.  The model takes the happy path of the `try` block: the
detector is available and raises nothing (the embedding is total). -/
def update_bus_position (haversine_distance : ℚ → ℚ → ℚ → ℚ → ℚ) (now : ℚ)
    (bus_update : BusUpdate) (locations : List LocationSample) (speeds : List ℚ)
    (state : List (String × StoredBus)) : UpdateOutcome :=
  let ts : ℚ :=
    match bus_update.timestamp with
    | none => now
    | some t => if t = 0 then now else t
  let det := detect_anomalies haversine_distance now bus_update.lat bus_update.lon
    bus_update.speed (some ts) locations speeds
  let bus : StoredBus := {
    vehicle_id := bus_update.vehicle_id, lat := bus_update.lat, lon := bus_update.lon,
    route_id := bus_update.route_id, trip_id := bus_update.trip_id,
    speed := bus_update.speed, bearing := bus_update.bearing, timestamp := ts,
    anomaly := det.1.anomaly, anomaly_types := det.1.anomaly_types,
    severity := det.1.severity, ghost_score := det.1.ghost_score,
    is_ghost := det.1.is_ghost, status := det.1.status }
  { success := true, vehicle_id := bus_update.vehicle_id,
    ghost_score := bus.ghost_score, is_ghost := bus.is_ghost,
    anomalies_detected := bus.anomaly_types,
    new_state := dictSet state bus_update.vehicle_id bus,
    broadcast_data := bus,
    new_locations := det.2.1, new_speeds := det.2.2 }

/-- The `SystemStats` response model (main.py lines 46-51).  The
`last_updated` ISO wall-clock string is not modelled. -/
structure SystemStats where
  total_buses : ℕ
  active_buses : ℕ
  ghost_buses : ℕ
  ghost_percentage : ℚ
deriving DecidableEq

/-- Python's round-half-to-even of a rational to the nearest integer, the
idealized semantics of the builtin `round`. -/
def roundHalfEven (x : ℚ) : ℤ :=
  if x - ⌊x⌋ < 1 / 2 then ⌊x⌋
  else if 1 / 2 < x - ⌊x⌋ then ⌊x⌋ + 1
  else if ⌊x⌋ % 2 = 0 then ⌊x⌋ else ⌊x⌋ + 1

/-- Python's `round(x, 1)` over ℚ: round half to even at one decimal place. -/
def pyRound1 (x : ℚ) : ℚ := (roundHalfEven (x * 10) : ℚ) / 10

/-- The `/stats` handler `get_system_stats` (main.py lines 315-328):
`total = len(STATE)`, `ghost_count = sum(1 for bus in STATE.values() if
bus.get("is_ghost", False))`, `active_count = total - ghost_count`,
`ghost_percentage = round((ghost_count / total * 100) if total > 0 else 0, 1)`. -/
def get_system_stats (state : List (String × StoredBus)) : SystemStats :=
  let total := state.length
  let ghost_count := (state.filter fun kv => kv.2.is_ghost).length
  let active_count := total - ghost_count
  { total_buses := total, active_buses := active_count, ghost_buses := ghost_count,
    ghost_percentage :=
      pyRound1 (if 0 < total then (ghost_count : ℚ) / (total : ℚ) * 100 else 0) }

/-- `ConnectionManager.disconnect` (main.py lines 65-67): remove the socket
from `active_connections` if present (`list.remove` deletes the first
occurrence).  Sockets are modelled by natural-number handles. -/
def disconnect (active_connections : List ℕ) (websocket : ℕ) : List ℕ :=
  if websocket ∈ active_connections then active_connections.erase websocket
  else active_connections

/-- `ConnectionManager.broadcast` (main.py lines 70-80): iterate over
`active_connections`, `send_text` to each inside `try`, collecting into
`disconnected` every connection whose send raised; afterwards `disconnect`
each collected connection.  `fails c = true` models `send_text` raising for
connection `c`.  Returns the pair (connections that received the message,
remaining active connections). -/
def broadcast (active_connections : List ℕ) (fails : ℕ → Bool) : List ℕ × List ℕ :=
  let disconnected := active_connections.filter fails
  let delivered := active_connections.filter fun c => !(fails c)
  (delivered, disconnected.foldl disconnect active_connections)

/-- Degenerate distance function (every pair at distance 0), used to evaluate
the pipeline on concrete inputs where the distance values are irrelevant or
where identical points are fed (haversine of a point with itself is 0). -/
def zero_distance : ℚ → ℚ → ℚ → ℚ → ℚ := fun _ _ _ _ => 0

/-- Distance function placing every pair of points 6 meters apart, above the
5-meter not-moving threshold. -/
def six_distance : ℚ → ℚ → ℚ → ℚ → ℚ := fun _ _ _ _ => 6

/-- Four identical retained location samples; pushing a fifth identical point
yields a 5-sample window with total distance 0. -/
def four_identical_locations : List LocationSample :=
  [⟨0, 0, 0⟩, ⟨0, 0, 0⟩, ⟨0, 0, 0⟩, ⟨0, 0, 0⟩]

/-- The locations window of one vehicle after `n` consecutive
`detect_anomalies` calls starting from an empty window (constant position
`(0, 0)`, fresh timestamps, no speed). -/
def locations_after : ℕ → List LocationSample
  | 0 => []
  | n + 1 =>
      (detect_anomalies zero_distance 100 0 0 none (some 100)
        (locations_after n) []).2.1

/-- A request body with an empty `vehicle_id` and out-of-range coordinates:
all three required fields are present, so pydantic accepts it. -/
def bad_raw : RawBusUpdate :=
  { vehicle_id := some "", lat := some 999, lon := some 999, route_id := none,
    trip_id := none, speed := none, bearing := none, timestamp := some 100 }

/-- The parsed form of `bad_raw`: empty vehicle id, latitude and longitude
999 (far outside the valid ±90/±180 ranges). -/
def bad_update : BusUpdate :=
  { vehicle_id := "", lat := 999, lon := 999, route_id := none,
    trip_id := none, speed := none, bearing := none, timestamp := some 100 }

/-- A stored record classified as active. -/
def example_active_bus : StoredBus :=
  ⟨"B1", 0, 0, none, none, none, none, 0, false, [], "info", 0, false, "active"⟩

/-- A stored record classified as ghost. -/
def example_ghost_bus : StoredBus :=
  ⟨"B2", 0, 0, none, none, none, none, 0, true, ["stale", "not_moving"],
    "critical", 13 / 20, true, "ghost"⟩

/-- A two-vehicle `STATE` with one active and one ghost record. -/
def stats_example_state : List (String × StoredBus) :=
  [("B1", example_active_bus), ("B2", example_ghost_bus)]

end GhostBus

namespace GhostBus

/-- The speed rule appends at most one of the two speed tags to the running
tag list and never removes or reorders earlier tags. -/
theorem speed_rule_shape (s : ℚ) (sp : List ℚ) (tags : List String) :
    speed_rule s sp tags = tags ++ [] ∨
      speed_rule s sp tags = tags ++ ["speed_spike"] ∨
      speed_rule s sp tags = tags ++ ["speed_drop"] := by
  unfold speed_rule
  rcases get_moving_stats sp with _ | avg
  · simp
  · dsimp only
    split_ifs <;> simp

set_option maxHeartbeats 1000000 in
/-- Characterization of `detect_anomalies`: the tag list is the staleness
tag, then the not-moving tag, then at most one speed tag, each present
exactly under its rule's condition; the pre-finalization severity is
`"warning"` exactly when the staleness or not-moving rule fired; the
returned windows are the post-push windows. -/
theorem detect_anomalies_char (hav : ℚ → ℚ → ℚ → ℚ → ℚ) (now lat lon : ℚ)
    (speed timestamp : Option ℚ) (locs : List LocationSample) (speeds : List ℚ) :
    ∃ extra : List String,
      (extra = [] ∨ extra = ["speed_spike"] ∨ extra = ["speed_drop"]) ∧
      detect_anomalies hav now lat lon speed timestamp locs speeds =
        (finalize
            ((if 20 < now - timestamp.getD now then ["stale"] else []) ++
              ((if 5 ≤ (location_window lat lon (timestamp.getD now) locs).length ∧
                    total_distance hav (location_window lat lon (timestamp.getD now) locs) < 5
                 then ["not_moving"] else []) ++ extra))
            (if 20 < now - timestamp.getD now then "warning"
             else if 5 ≤ (location_window lat lon (timestamp.getD now) locs).length ∧
                    total_distance hav (location_window lat lon (timestamp.getD now) locs) < 5
                  then "warning" else "info"),
          location_window lat lon (timestamp.getD now) locs,
          speed_window speed speeds) := by
  rcases speed with _ | s
  · refine ⟨[], Or.inl rfl, ?_⟩
    simp only [detect_anomalies]
    split_ifs <;> first | (simp; done) | simp_all
  · simp only [detect_anomalies]
    rcases speed_rule_shape s (speed_window (some s) speeds)
        (if 5 ≤ (location_window lat lon (timestamp.getD now) locs).length ∧
              total_distance hav (location_window lat lon (timestamp.getD now) locs) < 5
          then (if 20 < now - timestamp.getD now then ["stale"] else []) ++ ["not_moving"]
          else (if 20 < now - timestamp.getD now then ["stale"] else [])) with hsr | hsr | hsr
    · exact ⟨[], Or.inl rfl, by rw [hsr]; split_ifs <;> first | (simp; done) | simp_all⟩
    · exact ⟨["speed_spike"], Or.inr (Or.inl rfl), by
        rw [hsr]; split_ifs <;> first | (simp; done) | simp_all⟩
    · exact ⟨["speed_drop"], Or.inr (Or.inr rfl), by
        rw [hsr]; split_ifs <;> first | (simp; done) | simp_all⟩

/-- When every consecutive pair of retained points is more than 5 meters
apart and there are at least two points, the summed path length exceeds 5. -/
theorem chain_total_distance (hav : ℚ → ℚ → ℚ → ℚ → ℚ) :
    ∀ L : List LocationSample, 2 ≤ L.length →
      List.Chain' (fun a b => 5 < hav a.lat a.lon b.lat b.lon) L →
      5 < total_distance hav L := by
  intro L
  induction L with
  | nil => simp
  | cons a tail ih =>
    cases tail with
    | nil => simp
    | cons b rest =>
      intro hlen hchain
      rw [List.chain'_cons] at hchain
      have h1 := hchain.1
      have h2 := hchain.2
      show 5 < hav a.lat a.lon b.lat b.lon + total_distance hav (b :: rest)
      cases rest with
      | nil =>
        simp only [total_distance]
        linarith
      | cons c rest2 =>
        have h3 := ih (by simp) h2
        linarith

/-- Looking up a key just written into the `STATE` dict returns the written
record. -/
theorem dictGet_dictSet (state : List (String × StoredBus)) (k : String) (v : StoredBus) :
    dictGet (dictSet state k v) k = some v := by
  induction state with
  | nil => simp [dictSet, dictGet]
  | cons kv rest ih =>
    by_cases h : kv.1 = k <;> simp [dictSet, dictGet, h, ih]

/-- Folding `disconnect` over a removal list never adds connections. -/
theorem mem_of_mem_foldl_disconnect :
    ∀ (ds l : List ℕ) (c : ℕ), c ∈ List.foldl disconnect l ds → c ∈ l := by
  intro ds
  induction ds with
  | nil => intro l c h; simpa using h
  | cons d ds ih =>
    intro l c h
    have h2 := ih (disconnect l d) c h
    unfold disconnect at h2
    split_ifs at h2
    · exact List.mem_of_mem_erase h2
    · exact h2

/-- `disconnect` preserves duplicate-freeness of the connection list. -/
theorem nodup_disconnect (l : List ℕ) (d : ℕ) (h : l.Nodup) : (disconnect l d).Nodup := by
  unfold disconnect
  split_ifs
  · exact h.erase d
  · exact h

/-- A connection in the removal list is gone after folding `disconnect` over
a duplicate-free connection list. -/
theorem not_mem_foldl_disconnect :
    ∀ (ds l : List ℕ) (c : ℕ), l.Nodup → c ∈ ds → c ∉ List.foldl disconnect l ds := by
  intro ds
  induction ds with
  | nil => intro l c _ hc; simp at hc
  | cons d ds ih =>
    intro l c hl hc h
    rcases List.mem_cons.mp hc with rfl | hc2
    · have hmem := mem_of_mem_foldl_disconnect ds (disconnect l c) c h
      unfold disconnect at hmem
      split_ifs at hmem with hin
      · exact ((List.Nodup.mem_erase_iff hl).mp hmem).1 rfl
      · exact hin hmem
    · exact ih (disconnect l d) c (nodup_disconnect l d hl) hc2 h

end GhostBus

namespace GhostBus

/-- C1 (counterexample): a record with an empty `vehicle_id` and coordinates
(999, 999), far outside ±90/±180, passes model validation, and
`update_bus_position` accepts it: the handler reports success and the record
is written into `STATE` under the empty key — it is not rejected before the
store update. -/
theorem claim_C1_counterexample :
    parseBusUpdate bad_raw = Except.ok bad_update ∧
    (update_bus_position zero_distance 100 bad_update [] [] []).success = true ∧
    (dictGet (update_bus_position zero_distance 100 bad_update [] [] []).new_state
      "").isSome = true :=
  ⟨rfl, rfl, rfl⟩

/-- C1 (amended): the `/update_bus` entry point rejects exactly the request
bodies missing one of the required fields `vehicle_id`, `lat`, `lon` (a
validation error surfaced to the caller before the handler runs); every
record that parses — including one with an empty `vehicle_id` or
out-of-range coordinates — is processed unconditionally: the handler
reports success and the classified record is stored in `STATE` (the same
record that is broadcast), never silently dropped. -/
theorem claim_C1_amended (r : RawBusUpdate) (haversine_distance : ℚ → ℚ → ℚ → ℚ → ℚ)
    (now : ℚ) (u : BusUpdate) (locations : List LocationSample) (speeds : List ℚ)
    (state : List (String × StoredBus)) :
    (parseBusUpdate r = Except.error "validation error" ↔
      (r.vehicle_id = none ∨ r.lat = none ∨ r.lon = none)) ∧
    (update_bus_position haversine_distance now u locations speeds state).success = true ∧
    dictGet (update_bus_position haversine_distance now u locations speeds state).new_state
        u.vehicle_id =
      some (update_bus_position haversine_distance now u locations speeds state).broadcast_data := by
  refine ⟨?_, rfl, ?_⟩
  · rcases r with ⟨vid, la, lo, _, _, _, _, _⟩
    rcases vid with _ | v <;> rcases la with _ | a <;> rcases lo with _ | o <;>
      simp [parseBusUpdate]
  · simp only [update_bus_position]
    exact dictGet_dictSet state u.vehicle_id _

/-- C1 (witness): the amended theorem evaluated at the concrete malformed
record. -/
theorem claim_C1_amended_witness :
    (parseBusUpdate bad_raw = Except.error "validation error" ↔
      (bad_raw.vehicle_id = none ∨ bad_raw.lat = none ∨ bad_raw.lon = none)) ∧
    (update_bus_position zero_distance 100 bad_update [] [] []).success = true ∧
    dictGet (update_bus_position zero_distance 100 bad_update [] [] []).new_state
        bad_update.vehicle_id =
      some (update_bus_position zero_distance 100 bad_update [] [] []).broadcast_data :=
  claim_C1_amended bad_raw zero_distance 100 bad_update [] [] []

/-- C2 (code evaluation at the failing input): after 11 consecutive
`detect_anomalies` calls for one vehicle starting from an empty window, the
retained locations window has length 11, violating the claimed hard cap of
10 — the source's `ltrim(loc_key, 0, 10)` keeps indices 0 through 10, i.e.
**11** samples, contradicting its own comment "Keep last 10 positions". -/
theorem claim_C2_code_evaluation :
    (locations_after 11).length = 11 ∧ ¬ (locations_after 11).length ≤ 10 :=
  ⟨rfl, by simp [show (locations_after 11).length = 11 from rfl]⟩

set_option maxHeartbeats 1000000 in
/-- C3 (amended): for every record whose timestamp is older than `now` minus
the staleness threshold — which in `detect_anomalies` is the hardcoded
constant 20 seconds, not a configurable parameter and not 90 — the
classification includes `"stale"`, that tag contributes exactly 0.4 to
`ghost_score` independent of the other rules (the score is exactly 0.4 plus
the other rules' contributions), and severity is at least warning. -/
theorem claim_C3_amended (hav : ℚ → ℚ → ℚ → ℚ → ℚ) (now lat lon t : ℚ)
    (speed : Option ℚ) (locs : List LocationSample) (speeds : List ℚ)
    (hstale : 20 < now - t) :
    "stale" ∈ (detect_anomalies hav now lat lon speed (some t) locs speeds).1.anomaly_types ∧
    (detect_anomalies hav now lat lon speed (some t) locs speeds).1.ghost_score =
      2 / 5
        + (if "not_moving" ∈ (detect_anomalies hav now lat lon speed (some t) locs speeds).1.anomaly_types then (1 / 4 : ℚ) else 0)
        + (if "speed_drop" ∈ (detect_anomalies hav now lat lon speed (some t) locs speeds).1.anomaly_types then (1 / 5 : ℚ) else 0) ∧
    ((detect_anomalies hav now lat lon speed (some t) locs speeds).1.severity = "warning" ∨
      (detect_anomalies hav now lat lon speed (some t) locs speeds).1.severity = "critical") := by
  obtain ⟨extra, hex, heq⟩ := detect_anomalies_char hav now lat lon speed (some t) locs speeds
  rw [heq]; clear heq
  simp only [Option.getD_some] at *
  rcases hex with h | h | h <;> subst h <;> split_ifs <;>
    first | (norm_num [finalize, rule_floor, max_def, min_def]; all_goals (try simp); all_goals (try norm_num); all_goals (try simp); done) | (exfalso; simp_all [finalize])

/-- C3 (counterexample to the claim as stated): a record aged 50 seconds is
tagged `"stale"` although 50 seconds is within the claimed 90-second default
threshold — the effective threshold is the hardcoded 20, not a configurable
90-second parameter. -/
theorem claim_C3_counterexample :
    "stale" ∈ (detect_anomalies zero_distance 100 0 0 none (some 50) [] []).1.anomaly_types ∧
    ¬ (100 - 50 > (90 : ℚ)) := by
  constructor
  · norm_num [detect_anomalies, finalize, location_window, speed_window,
      total_distance, zero_distance]
  · norm_num

/-- C3 (witness): the amended theorem evaluated at a record 100 seconds old
(threshold 20 exceeded). -/
theorem claim_C3_amended_witness :
    "stale" ∈ (detect_anomalies zero_distance 100 0 0 none (some 0) [] []).1.anomaly_types ∧
    (detect_anomalies zero_distance 100 0 0 none (some 0) [] []).1.ghost_score =
      2 / 5
        + (if "not_moving" ∈ (detect_anomalies zero_distance 100 0 0 none (some 0) [] []).1.anomaly_types then (1 / 4 : ℚ) else 0)
        + (if "speed_drop" ∈ (detect_anomalies zero_distance 100 0 0 none (some 0) [] []).1.anomaly_types then (1 / 5 : ℚ) else 0) ∧
    ((detect_anomalies zero_distance 100 0 0 none (some 0) [] []).1.severity = "warning" ∨
      (detect_anomalies zero_distance 100 0 0 none (some 0) [] []).1.severity = "critical") :=
  claim_C3_amended zero_distance 100 0 0 0 none [] [] (by norm_num)

end GhostBus

namespace GhostBus

set_option maxHeartbeats 1000000 in
/-- C4: whenever the post-push location window (the newly appended point
included) holds at least 5 samples and the summed consecutive-pair distance
is below 5 meters, `detect_anomalies` emits `"not_moving"`, the score is the
other rules' contributions plus exactly 0.25, and severity ends at least at
warning; and with at least 5 samples each consecutive pair more than 5
meters apart, the tag is never emitted. -/
theorem claim_C4 (hav : ℚ → ℚ → ℚ → ℚ → ℚ) (now lat lon t : ℚ)
    (speed : Option ℚ) (locs : List LocationSample) (speeds : List ℚ) :
    (5 ≤ (location_window lat lon t locs).length →
      total_distance hav (location_window lat lon t locs) < 5 →
        ("not_moving" ∈ (detect_anomalies hav now lat lon speed (some t) locs speeds).1.anomaly_types ∧
         (detect_anomalies hav now lat lon speed (some t) locs speeds).1.ghost_score =
           (if "stale" ∈ (detect_anomalies hav now lat lon speed (some t) locs speeds).1.anomaly_types then (2 / 5 : ℚ) else 0)
             + 1 / 4
             + (if "speed_drop" ∈ (detect_anomalies hav now lat lon speed (some t) locs speeds).1.anomaly_types then (1 / 5 : ℚ) else 0) ∧
         ((detect_anomalies hav now lat lon speed (some t) locs speeds).1.severity = "warning" ∨
           (detect_anomalies hav now lat lon speed (some t) locs speeds).1.severity = "critical"))) ∧
    (5 ≤ (location_window lat lon t locs).length →
      List.Chain' (fun a b => 5 < hav a.lat a.lon b.lat b.lon) (location_window lat lon t locs) →
        "not_moving" ∉ (detect_anomalies hav now lat lon speed (some t) locs speeds).1.anomaly_types) := by
  obtain ⟨extra, hex, heq⟩ := detect_anomalies_char hav now lat lon speed (some t) locs speeds
  rw [heq]; clear heq
  simp only [Option.getD_some] at *
  constructor
  · intro h1 h2
    rcases hex with he | he | he <;> subst he <;> split_ifs <;>
      first
        | (norm_num [finalize, max_def, min_def]; all_goals (try simp); all_goals (try norm_num); all_goals (try simp); done)
        | (exact ((‹¬(5 ≤ (location_window lat lon t locs).length ∧ total_distance hav (location_window lat lon t locs) < 5)›) ⟨h1, h2⟩).elim)
        | (exfalso; simp_all [finalize])
  · intro h1 hchain
    have hgt : 5 < total_distance hav (location_window lat lon t locs) :=
      chain_total_distance hav _ (by omega) hchain
    rcases hex with he | he | he <;> subst he <;> split_ifs <;>
      first
        | (norm_num [finalize, max_def, min_def]; all_goals (try simp); all_goals (try norm_num); all_goals (try simp); done)
        | (exfalso; linarith [hgt, (‹5 ≤ (location_window lat lon t locs).length ∧ total_distance hav (location_window lat lon t locs) < 5›).2])
        | (exfalso; simp_all [finalize])

/-- C4 (witness): five identical points (distance function constantly 0)
fire the tag with score contribution 0.25 and severity warning; five points
pairwise 6 meters apart (distance function constantly 6) never fire it. -/
theorem claim_C4_witness :
    ("not_moving" ∈ (detect_anomalies zero_distance 0 0 0 none (some 0) four_identical_locations []).1.anomaly_types ∧
     (detect_anomalies zero_distance 0 0 0 none (some 0) four_identical_locations []).1.ghost_score =
       (if "stale" ∈ (detect_anomalies zero_distance 0 0 0 none (some 0) four_identical_locations []).1.anomaly_types then (2 / 5 : ℚ) else 0)
         + 1 / 4
         + (if "speed_drop" ∈ (detect_anomalies zero_distance 0 0 0 none (some 0) four_identical_locations []).1.anomaly_types then (1 / 5 : ℚ) else 0) ∧
     ((detect_anomalies zero_distance 0 0 0 none (some 0) four_identical_locations []).1.severity = "warning" ∨
       (detect_anomalies zero_distance 0 0 0 none (some 0) four_identical_locations []).1.severity = "critical")) ∧
    ("not_moving" ∉ (detect_anomalies six_distance 0 0 0 none (some 0) four_identical_locations []).1.anomaly_types) :=
  ⟨(claim_C4 zero_distance 0 0 0 0 none four_identical_locations []).1
      (by norm_num [location_window, four_identical_locations])
      (by norm_num [location_window, four_identical_locations, total_distance, zero_distance]),
   (claim_C4 six_distance 0 0 0 0 none four_identical_locations []).2
      (by norm_num [location_window, four_identical_locations])
      (by norm_num [location_window, four_identical_locations, six_distance, List.chain'_cons])⟩

set_option maxHeartbeats 1000000 in
/-- C5: severity is `"critical"` exactly when at least 2 distinct anomaly
tags fired; with fewer than 2 tags, severity equals the floor set by the
individual rules that fired (`"info"` when none fired). -/
theorem claim_C5 (hav : ℚ → ℚ → ℚ → ℚ → ℚ) (now lat lon : ℚ)
    (speed timestamp : Option ℚ) (locs : List LocationSample) (speeds : List ℚ) :
    ((detect_anomalies hav now lat lon speed timestamp locs speeds).1.severity = "critical" ↔
      2 ≤ (detect_anomalies hav now lat lon speed timestamp locs speeds).1.anomaly_types.length) ∧
    ((detect_anomalies hav now lat lon speed timestamp locs speeds).1.anomaly_types.length < 2 →
      (detect_anomalies hav now lat lon speed timestamp locs speeds).1.severity =
        rule_floor (detect_anomalies hav now lat lon speed timestamp locs speeds).1.anomaly_types) := by
  obtain ⟨extra, hex, heq⟩ := detect_anomalies_char hav now lat lon speed timestamp locs speeds
  rw [heq]; clear heq
  rcases hex with h | h | h <;> subst h <;> split_ifs <;>
    first | (norm_num [finalize, rule_floor, max_def, min_def]; all_goals (try simp); all_goals (try norm_num); all_goals (try simp); done) | (exfalso; simp_all [finalize])

/-- C5 (witness): a fresh record with no anomalies has fewer than 2 tags and
severity equal to the rules' floor. -/
theorem claim_C5_witness :
    (detect_anomalies zero_distance 0 0 0 none (some 0) [] []).1.anomaly_types.length < 2 ∧
    (detect_anomalies zero_distance 0 0 0 none (some 0) [] []).1.severity =
      rule_floor (detect_anomalies zero_distance 0 0 0 none (some 0) [] []).1.anomaly_types :=
  ⟨by norm_num [detect_anomalies, finalize, location_window, speed_window,
      total_distance, zero_distance],
   (claim_C5 zero_distance 0 0 0 none (some 0) [] []).2
    (by norm_num [detect_anomalies, finalize, location_window, speed_window,
      total_distance, zero_distance])⟩

/-- C6: `is_ghost` holds exactly when `ghost_score >= 0.6`, and `status` is
`"ghost"` when `is_ghost` and `"active"` otherwise. -/
theorem claim_C6 (hav : ℚ → ℚ → ℚ → ℚ → ℚ) (now lat lon : ℚ)
    (speed timestamp : Option ℚ)
    (locs : List LocationSample) (speeds : List ℚ) :
    ((detect_anomalies hav now lat lon speed timestamp locs speeds).1.is_ghost = true ↔
      (3 / 5 : ℚ) ≤ (detect_anomalies hav now lat lon speed timestamp locs speeds).1.ghost_score) ∧
    (detect_anomalies hav now lat lon speed timestamp locs speeds).1.status =
      (if (detect_anomalies hav now lat lon speed timestamp locs speeds).1.is_ghost
        then "ghost" else "active") :=
  ⟨decide_eq_true_iff, rfl⟩

/-- C6 (witness): the theorem evaluated at a concrete fresh record. -/
theorem claim_C6_witness :
    ((detect_anomalies zero_distance 0 0 0 none (some 0) [] []).1.is_ghost = true ↔
      (3 / 5 : ℚ) ≤ (detect_anomalies zero_distance 0 0 0 none (some 0) [] []).1.ghost_score) ∧
    (detect_anomalies zero_distance 0 0 0 none (some 0) [] []).1.status =
      (if (detect_anomalies zero_distance 0 0 0 none (some 0) [] []).1.is_ghost
        then "ghost" else "active") :=
  claim_C6 zero_distance 0 0 0 none (some 0) [] []

set_option maxHeartbeats 1000000 in
/-- C7: `ghost_score` equals the clamp into [0, 1] of the fired rules'
summed contributions (vacuously, since the sum is at most 0.4 + 0.25 + 0.2
= 0.85, the source's missing clamp is unobservable), so the score always
lies in [0, 1]. -/
theorem claim_C7 (hav : ℚ → ℚ → ℚ → ℚ → ℚ) (now lat lon : ℚ)
    (speed timestamp : Option ℚ) (locs : List LocationSample) (speeds : List ℚ) :
    (detect_anomalies hav now lat lon speed timestamp locs speeds).1.ghost_score =
      max 0 (min 1
        ((if "stale" ∈ (detect_anomalies hav now lat lon speed timestamp locs speeds).1.anomaly_types then (2 / 5 : ℚ) else 0)
          + (if "not_moving" ∈ (detect_anomalies hav now lat lon speed timestamp locs speeds).1.anomaly_types then (1 / 4 : ℚ) else 0)
          + (if "speed_drop" ∈ (detect_anomalies hav now lat lon speed timestamp locs speeds).1.anomaly_types then (1 / 5 : ℚ) else 0))) ∧
    0 ≤ (detect_anomalies hav now lat lon speed timestamp locs speeds).1.ghost_score ∧
    (detect_anomalies hav now lat lon speed timestamp locs speeds).1.ghost_score ≤ 1 := by
  obtain ⟨extra, hex, heq⟩ := detect_anomalies_char hav now lat lon speed timestamp locs speeds
  rw [heq]; clear heq
  rcases hex with h | h | h <;> subst h <;> split_ifs <;>
    first | (norm_num [finalize, rule_floor, max_def, min_def]; all_goals (try simp); all_goals (try norm_num); all_goals (try simp); done) | (exfalso; simp_all [finalize])

set_option maxHeartbeats 1000000 in
/-- C10: a classification can only be a ghost when the record is stale: the
non-staleness rules contribute at most 0.25 + 0.2 = 0.45 < 0.6, so
`is_ghost` implies `"stale"` is among the anomaly tags. -/
theorem claim_C10 (hav : ℚ → ℚ → ℚ → ℚ → ℚ) (now lat lon : ℚ)
    (speed timestamp : Option ℚ)
    (locs : List LocationSample) (speeds : List ℚ)
    (h : (detect_anomalies hav now lat lon speed timestamp locs speeds).1.is_ghost = true) :
    "stale" ∈ (detect_anomalies hav now lat lon speed timestamp locs speeds).1.anomaly_types := by
  obtain ⟨extra, hex, heq⟩ := detect_anomalies_char hav now lat lon speed timestamp locs speeds
  rw [heq] at h ⊢; clear heq
  rcases hex with he | he | he <;> subst he <;> split_ifs at h ⊢ <;>
    first
      | (simp [finalize]; done)
      | (exfalso; norm_num [finalize] at h; all_goals (try (simp at h)); all_goals (try (norm_num at h)))

/-- C10 (witness): a stale, non-moving record is a ghost (score 0.65) and
indeed carries the `"stale"` tag. -/
theorem claim_C10_witness :
    "stale" ∈ (detect_anomalies zero_distance 100 0 0 none (some 0)
      four_identical_locations []).1.anomaly_types :=
  claim_C10 zero_distance 100 0 0 none (some 0) four_identical_locations []
    (by norm_num [detect_anomalies, finalize, location_window, speed_window, total_distance, zero_distance, four_identical_locations]; all_goals simp; all_goals norm_num)

end GhostBus

namespace GhostBus

/-- C8: `ghost_percentage` is `round(ghost_count / total * 100, 1)` when
vehicles exist and 0 when the state is empty (the guard prevents any
division at `total = 0`), and the total count is the active count plus the
ghost count. -/
theorem claim_C8 (state : List (String × StoredBus)) :
    (state.length = 0 → (get_system_stats state).ghost_percentage = 0) ∧
    (0 < state.length → (get_system_stats state).ghost_percentage =
      pyRound1 (((get_system_stats state).ghost_buses : ℚ) / (state.length : ℚ) * 100)) ∧
    (get_system_stats state).total_buses =
      (get_system_stats state).active_buses + (get_system_stats state).ghost_buses := by
  refine ⟨?_, ?_, ?_⟩
  · intro h
    simp [get_system_stats, h, pyRound1, roundHalfEven]
  · intro h
    simp [get_system_stats, h]
  · have hle := List.length_filter_le (fun kv => kv.2.is_ghost) state
    simp only [get_system_stats]
    omega

/-- C8 (witness): on a two-vehicle state with one ghost the percentage
formula applies (and the empty state yields 0). -/
theorem claim_C8_witness :
    (0 < stats_example_state.length) ∧
    (get_system_stats stats_example_state).ghost_percentage =
      pyRound1 (((get_system_stats stats_example_state).ghost_buses : ℚ) /
        (stats_example_state.length : ℚ) * 100) :=
  ⟨by norm_num [stats_example_state],
   (claim_C8 stats_example_state).2.1 (by norm_num [stats_example_state])⟩

/-- C9: during `broadcast`, a subscriber whose delivery fails is removed
from the active connection list by the end of the call (the connection list
holding no duplicates), and every subscriber whose delivery does not fail
receives the message — one failure never aborts delivery to the rest. -/
theorem claim_C9 (conns : List ℕ) (fails : ℕ → Bool) (c : ℕ)
    (hnd : conns.Nodup) (hc : c ∈ conns) :
    (fails c = true → c ∉ (broadcast conns fails).2) ∧
    (fails c = false → c ∈ (broadcast conns fails).1) := by
  simp only [broadcast]
  constructor
  · intro hf
    exact not_mem_foldl_disconnect _ _ _ hnd (List.mem_filter.mpr ⟨hc, hf⟩)
  · intro hf
    exact List.mem_filter.mpr ⟨hc, by simp [hf]⟩

/-- C9 (witness): broadcasting to connections 1, 2, 3 where only
connection 2 fails removes 2 from the active list and still delivers to 1. -/
theorem claim_C9_witness :
    (2 ∉ (broadcast [1, 2, 3] (fun n => decide (n = 2))).2) ∧
    (1 ∈ (broadcast [1, 2, 3] (fun n => decide (n = 2))).1) :=
  ⟨(claim_C9 [1, 2, 3] (fun n => decide (n = 2)) 2 (by decide) (by decide)).1 (by decide),
   (claim_C9 [1, 2, 3] (fun n => decide (n = 2)) 1 (by decide) (by decide)).2 (by decide)⟩

end GhostBus
